import Mathlib

/-!
# Verification of the go-image-inspector quality analysis engine

A shallow embedding of the engine's core components, translated from the Go
sources:

* `internal/analyzer/metrics_calculator.go` — pixel statistics (basic metrics,
  Laplacian variance, brightness, skew, contours),
* the QR finder-pattern detector (`qrDetector`),
* `pkg/validation` — the threshold-driven quality rule engine,
* `internal/analyzer/core_analyzer.go` — the orchestrating
  `AnalyzeWithOptions`, and
* `internal/analyzer/worker_pool.go` — the worker pool's job-completion
  tracking and `Close` lifecycle, modelled as an explicit transition system.

Modelling conventions:

* Go `float64` arithmetic is modelled with exact rationals (`ℚ`).  All the
  numeric decisions proved here (threshold comparisons, averages,
  variances) are algebraic and carried out on small integers scaled by fixed
  denominators, where IEEE semantics and the exact semantics agree on the
  direction of every comparison that the theorems touch.
* `math.Sqrt(v) > 50` for a nonnegative integer `v` is embedded as
  `2500 < v`: `sqrt` is strictly monotone and exact on perfect squares, so
  the two tests decide identically (both sides are exactly representable).
* `math.Atan(slope) * 180 / math.Pi` is transcendental; it is abstracted as
  an explicit function parameter `atanDeg : ℚ → ℚ`.  Every theorem below is
  proved for all values of this parameter, so nothing depends on the
  numerical behaviour of the arctangent.
* Images have their bounds anchored at the origin (`image.Rect(0, 0, w, h)`),
  which is the shape produced by Go's decoders and by `image.NewGray` as used
  throughout the repository.
-/

/- `Rat.add`, `Rat.mul`, `Rat.sub` and `Rat.inv` ship marked `@[irreducible]`;
restoring the default reducibility lets concrete evaluations of the embedding
go through `decide` (kernel-checked reduction; no axioms involved). -/
set_option allowUnsafeReducibility true in
attribute [semireducible] Rat.mul Rat.add Rat.sub Rat.inv

namespace GoImageInspector

/-- A decoded raster image: width, height and per-pixel 16-bit channel values
as returned by Go's `image.Image.At(x, y).RGBA()` (each in `0 .. 65535`).
Pixels are total functions of the coordinates; all code paths below only read
inside `[0, width) × [0, height)`. -/
structure RGBAImage where
  width : ℕ
  height : ℕ
  r : ℤ → ℤ → ℕ
  g : ℤ → ℤ → ℕ
  b : ℤ → ℤ → ℕ

/-- A grayscale image (`image.Gray`): 8-bit intensity per pixel.
`pix x y` models `gray.GrayAt(x, y).Y`; Go returns the zero color outside the
bounds, which the embedding of concrete images reproduces. -/
structure GrayImage where
  width : ℕ
  height : ℕ
  pix : ℤ → ℤ → ℕ

/-- Go's `color.GrayModel` conversion used by `draw.Draw` onto an
`image.Gray` destination: `y = (19595 r + 38470 g + 7471 b + 2^15) >> 24`
on 16-bit channels, yielding an 8-bit intensity. -/
def grayValue (r g b : ℕ) : ℕ :=
  (19595 * r + 38470 * g + 7471 * b + 32768) / 16777216

/-- Grayscale derivation performed by the analyzer and the QR detector:
`gray := image.NewGray(bounds); draw.Draw(gray, bounds, img, bounds.Min, draw.Src)`.
Outside the bounds the freshly allocated `image.Gray` stays zero. -/
def grayOf (img : RGBAImage) : GrayImage where
  width := img.width
  height := img.height
  pix := fun x y =>
    if 0 ≤ x ∧ x < (img.width : ℤ) ∧ 0 ≤ y ∧ y < (img.height : ℤ) then
      grayValue (img.r x y) (img.g x y) (img.b x y)
    else 0

/-- Row-major list of all pixel coordinates of a `w × h` image, the iteration
order of the Go double loops `for y … for x …`. -/
def allPoints (w h : ℕ) : List (ℤ × ℤ) :=
  (List.range h).flatMap fun y => (List.range w).map fun x => ((x : ℤ), (y : ℤ))

/-- Row-major list of the interior pixel coordinates (1-pixel border
excluded): the iteration order of `for y := 1; y < height-1 … for x := 1;
x < width-1 …`. -/
def interiorPoints (w h : ℕ) : List (ℤ × ℤ) :=
  (List.range (h - 2)).flatMap fun j =>
    (List.range (w - 2)).map fun i => ((i : ℤ) + 1, (j : ℤ) + 1)

/-! ## Exact counterparts of the `math` package helpers

Written with `mkRat` and explicit case splits so that every concrete
evaluation reduces in the kernel. -/

/-- Go's `math.Max` on the (NaN-free) rationals of this embedding. -/
def mathMax (x y : ℚ) : ℚ := if x < y then y else x

/-- Go's `math.Min`. -/
def mathMin (x y : ℚ) : ℚ := if y < x then y else x

/-- Go's `math.Abs`. -/
def mathAbs (x : ℚ) : ℚ := if x < 0 then -x else x

/-- The analyzer's own integer `abs` helper (`core_analyzer.go`). -/
def intAbs (x : ℤ) : ℤ := if x < 0 then -x else x

/-- Exact rational division, modelling Go's `float64` division:
`(n₁/d₁) / (n₂/d₂) = (n₁·d₂) / (d₁·n₂)`, and `0` for a zero divisor
(`mkRat _ 0 = 0`; no concrete evaluation divides by zero).  Written with
`mkRat` so that the kernel can evaluate it; `fdiv_eq_div` below checks it
against Mathlib's field division. -/
def fdiv (a b : ℚ) : ℚ :=
  if b.num < 0 then mkRat (-(a.num * b.den)) (a.den * b.num.natAbs)
  else mkRat (a.num * b.den) (a.den * b.num.natAbs)

/-! ## Metrics calculator (`internal/analyzer/metrics_calculator.go`) -/

/-- Internal calculation results (`metrics` in `interfaces.go`): normalized
averages in `[0, 1]`. -/
structure metrics where
  avgLuminance : ℚ
  avgSaturation : ℚ
  avgR : ℚ
  avgG : ℚ
  avgB : ℚ
deriving DecidableEq, Repr

/-- `metricsCalculator.rgbToHSV` on normalized channels: returns `(h, s, v)`
with `v = max(r, g, b)` and `s = 0` if the max is `0`, else `delta / max`. -/
def rgbToHSV (r g b : ℚ) : ℚ × ℚ × ℚ :=
  let mx := mathMax r (mathMax g b)
  let mn := mathMin r (mathMin g b)
  let delta := mx - mn
  let v := mx
  let s := if mx = 0 then 0 else fdiv delta mx
  let h0 : ℚ :=
    if delta = 0 then 0
    else if mx = r then 60 * fdiv (g - b) delta
    else if mx = g then 60 * (fdiv (b - r) delta + 2)
    else 60 * (fdiv (r - g) delta + 4)
  let h := if h0 < 0 then h0 + 360 else h0
  (h, s, v)

/-- `metricsCalculator.CalculateBasicMetrics`.  The Go code partitions the
rows into `min(NumCPU, height)` horizontal strips, accumulates per-strip
sums concurrently and adds the strip totals; over exact arithmetic that
reduction equals the plain row-major double sum embedded here (addition is
associative and commutative), independent of the worker count.  Both
degenerate guards of the source (`width == 0 || height == 0` and
`totalPixelCount == 0`) are kept. -/
def calculateBasicMetrics (img : RGBAImage) : metrics :=
  if img.width = 0 ∨ img.height = 0 then ⟨0, 0, 0, 0, 0⟩
  else
    let pts := allPoints img.width img.height
    let rf : ℤ × ℤ → ℚ := fun p => fdiv (img.r p.1 p.2 : ℚ) 65535
    let gf : ℤ × ℤ → ℚ := fun p => fdiv (img.g p.1 p.2 : ℚ) 65535
    let bf : ℤ × ℤ → ℚ := fun p => fdiv (img.b p.1 p.2 : ℚ) 65535
    let totalLum := (pts.map fun p => (rgbToHSV (rf p) (gf p) (bf p)).2.2).sum
    let totalSat := (pts.map fun p => (rgbToHSV (rf p) (gf p) (bf p)).2.1).sum
    let totalR := (pts.map rf).sum
    let totalG := (pts.map gf).sum
    let totalB := (pts.map bf).sum
    let totalPixelCount := pts.length
    if totalPixelCount = 0 then ⟨0, 0, 0, 0, 0⟩
    else
      let n : ℚ := (totalPixelCount : ℚ)
      ⟨fdiv totalLum n, fdiv totalSat n, fdiv totalR n, fdiv totalG n, fdiv totalB n⟩

/-- The row-major list of Laplacian responses over the interior pixels,
kernel `[[0,1,0],[1,-4,1],[0,1,0]]` — the `data` slice built by
`CalculateLaplacianVariance`. -/
def laplacianValues (gray : GrayImage) : List ℚ :=
  (interiorPoints gray.width gray.height).map fun p =>
    let center := (gray.pix p.1 p.2 : ℚ)
    let top := (gray.pix p.1 (p.2 - 1) : ℚ)
    let bottom := (gray.pix p.1 (p.2 + 1) : ℚ)
    let left := (gray.pix (p.1 - 1) p.2 : ℚ)
    let right := (gray.pix (p.1 + 1) p.2 : ℚ)
    let laplacian := -4 * center + top + bottom + left + right
    laplacian

/-- Gonum's `stat.Variance` with nil weights: the unbiased sample variance
`Σ (x - mean)² / (n - 1)`.  (For `n = 1` Gonum divides by zero and yields
NaN; rational division by zero yields `0`.  No theorem below touches a
single-element list.) -/
def sampleVariance (xs : List ℚ) : ℚ :=
  let n : ℚ := (xs.length : ℚ)
  let mean := fdiv xs.sum n
  fdiv ((xs.map fun x => (x - mean) * (x - mean)).sum) (n - 1)

/-- `metricsCalculator.CalculateLaplacianVariance`: Laplacian responses over
the interior, then their sample variance; `0` when no interior pixel
exists. -/
def calculateLaplacianVariance (gray : GrayImage) : ℚ :=
  let data := laplacianValues gray
  if data.length = 0 then 0 else sampleVariance data

/-- `metricsCalculator.CalculateBrightness`: mean 8-bit intensity.  The
parallel row-strip path taken above 100 000 pixels computes the same total
as the sequential path over exact arithmetic, so both reduce to this mean;
the `width == 0 || height == 0` guard of the source is kept. -/
def calculateBrightness (gray : GrayImage) : ℚ :=
  if gray.width = 0 ∨ gray.height = 0 then 0
  else
    fdiv ((allPoints gray.width gray.height).map fun p => (gray.pix p.1 p.2 : ℚ)).sum
      ((gray.width : ℚ) * (gray.height : ℚ))

/-- `metricsCalculator.calculateSobelX` at an interior pixel. -/
def calculateSobelX (gray : GrayImage) (x y : ℤ) : ℤ :=
  -1 * (gray.pix (x - 1) (y - 1) : ℤ) + 1 * (gray.pix (x + 1) (y - 1) : ℤ) +
    -2 * (gray.pix (x - 1) y : ℤ) + 2 * (gray.pix (x + 1) y : ℤ) +
    -1 * (gray.pix (x - 1) (y + 1) : ℤ) + 1 * (gray.pix (x + 1) (y + 1) : ℤ)

/-- `metricsCalculator.calculateSobelY` at an interior pixel. -/
def calculateSobelY (gray : GrayImage) (x y : ℤ) : ℤ :=
  -1 * (gray.pix (x - 1) (y - 1) : ℤ) - 2 * (gray.pix x (y - 1) : ℤ) -
      1 * (gray.pix (x + 1) (y - 1) : ℤ) +
    1 * (gray.pix (x - 1) (y + 1) : ℤ) + 2 * (gray.pix x (y + 1) : ℤ) +
    1 * (gray.pix (x + 1) (y + 1) : ℤ)

/-- The edge-evidence coordinates gathered by `DetectSkew`: interior pixels
whose Sobel magnitude exceeds the threshold.  `math.Sqrt(gx²+gy²) > 50` is
embedded as `2500 < gx² + gy²` (exact for integer operands). -/
def edgePoints (gray : GrayImage) : List (ℤ × ℤ) :=
  (interiorPoints gray.width gray.height).filter fun p =>
    let gx := calculateSobelX gray p.1 p.2
    let gy := calculateSobelY gray p.1 p.2
    2500 < gx * gx + gy * gy

/-- The `for angle > 45 { angle -= 90 }` folding loop of
`calculateSkewAngle`. -/
def foldAngleDown (a : ℚ) : ℚ :=
  if h : 45 < a then foldAngleDown (a - 90) else a
termination_by (⌈a - 45⌉).toNat
decreasing_by
  have h1 : (1 : ℤ) ≤ ⌈a - 45⌉ := by
    have : (0 : ℚ) < a - 45 := by linarith
    exact Int.ceil_pos.mpr this
  have h2 : ⌈a - 90 - 45⌉ = ⌈a - 45⌉ - 90 := by
    have e : a - 90 - 45 = a - 45 + ((-90 : ℤ) : ℚ) := by push_cast; ring
    rw [e, Int.ceil_add_int]
    omega
  omega

/-- The `for angle < -45 { angle += 90 }` folding loop of
`calculateSkewAngle`. -/
def foldAngleUp (a : ℚ) : ℚ :=
  if h : a < -45 then foldAngleUp (a + 90) else a
termination_by (⌈-a - 45⌉).toNat
decreasing_by
  have h1 : (1 : ℤ) ≤ ⌈-a - 45⌉ := by
    have : (0 : ℚ) < -a - 45 := by linarith
    exact Int.ceil_pos.mpr this
  have h2 : ⌈-(a + 90) - 45⌉ = ⌈-a - 45⌉ - 90 := by
    have e : -(a + 90) - 45 = -a - 45 + ((-90 : ℤ) : ℚ) := by push_cast; ring
    rw [e, Int.ceil_add_int]
    omega
  omega

/-- `metricsCalculator.calculateSkewAngle`: least-squares slope through the
edge coordinates, converted to degrees by `atanDeg` (abstracting
`math.Atan(slope) * 180 / π`, see the header) and folded into `[-45, 45]`.
The Go NaN/Inf guard on the angle cannot fire for a total `atanDeg` and is
subsumed by it. -/
def calculateSkewAngle (atanDeg : ℚ → ℚ) (xCoords yCoords : List ℚ) : ℚ :=
  if xCoords.length < 2 ∨ yCoords.length < 2 then 0
  else
    let meanX := fdiv xCoords.sum (xCoords.length : ℚ)
    let meanY := fdiv yCoords.sum (yCoords.length : ℚ)
    let sumXY := ((xCoords.zip yCoords).map fun q =>
      (q.1 - meanX) * (q.2 - meanY)).sum
    let sumX2 := (xCoords.map fun x => (x - meanX) * (x - meanX)).sum
    if mathAbs sumX2 < mkRat 1 10000000000 then 0
    else
      let slope := fdiv sumXY sumX2
      let angle := atanDeg slope
      foldAngleUp (foldAngleDown angle)

/-- `metricsCalculator.DetectSkew`: collect edge-evidence coordinates;
**absent** (`none`) when fewer than 10 exist, otherwise the fitted angle. -/
def detectSkew (atanDeg : ℚ → ℚ) (gray : GrayImage) : Option ℚ :=
  let pts := edgePoints gray
  if pts.length < 10 then none
  else
    some (calculateSkewAngle atanDeg
      (pts.map fun p => (p.1 : ℚ)) (pts.map fun p => (p.2 : ℚ)))

/-- `metricsCalculator.DetectContours`: count interior pixels whose Sobel
magnitude exceeds the edge threshold (the source repeats the same kernel
sums as `calculateSobelX`/`calculateSobelY` with the addends reordered),
divided by the fixed grouping factor 10. -/
def detectContours (gray : GrayImage) : ℕ :=
  let edgeCount := ((interiorPoints gray.width gray.height).filter fun p =>
    let gx := calculateSobelX gray p.1 p.2
    let gy := calculateSobelY gray p.1 p.2
    2500 < gx * gx + gy * gy).length
  edgeCount / 10

/-! ## QR finder-pattern detector (`qrDetector`) -/

/-- `qrDetector.isQRFinderPattern`: around a candidate center, sample four
radii in four directions and test the alternating dark/light fingerprint;
at least 3 of the 4 samples must match in at least 2 directions.  An
out-of-bounds sample simply fails to match, as in the source. -/
def isQRFinderPattern (gray : GrayImage) (centerX centerY : ℤ) (radius : ℕ) : Bool :=
  let width := (gray.width : ℤ)
  let height := (gray.height : ℤ)
  if centerX - radius < 0 ∨ width ≤ centerX + radius ∨
      centerY - radius < 0 ∨ height ≤ centerY + radius then false
  else
    let samples : List ℕ := [radius / 4, radius / 2, 3 * radius / 4, radius]
    let expectedPattern : List Bool := [true, false, true, false]
    let directions : List (ℤ × ℤ) := [(1, 0), (0, 1), (1, 1), (-1, 1)]
    let matchingDirections := (directions.filter fun dir =>
      let matchCount := ((samples.zip expectedPattern).filter fun se =>
        let x := centerX + (se.1 : ℤ) * dir.1
        let y := centerY + (se.1 : ℤ) * dir.2
        decide (0 ≤ x ∧ x < width ∧ 0 ≤ y ∧ y < height) &&
          (decide (gray.pix x y < 128) == se.2)).length
      decide (samples.length - 1 ≤ matchCount)).length
    decide (2 ≤ matchingDirections)

/-- The candidate sizes scanned by `qrDetector.checkFinderPattern`:
`size := minSize; size <= maxSize; size += 2`. -/
def qrSizes (minSize maxSize : ℕ) : List ℕ :=
  (List.range ((maxSize + 2 - minSize) / 2)).map fun k => minSize + 2 * k

/-- `qrDetector.checkFinderPattern`: try every candidate size, radius
`size / 2`. -/
def checkFinderPattern (gray : GrayImage) (startX startY : ℤ) (minSize maxSize : ℕ) : Bool :=
  (qrSizes minSize maxSize).any fun size =>
    isQRFinderPattern gray startX startY (size / 2)

/-- `qrDetector.hasQRPattern`: reject when the size-dependent maximum
`min(width, height) / 3` falls below the 7-pixel minimum; otherwise count
qualifying candidate positions (three quadrants and the center) and require
at least 2. -/
def hasQRPattern (gray : GrayImage) (width height : ℕ) : Bool :=
  let minSize : ℕ := 7
  let maxSize : ℕ := min width height / 3
  if maxSize < minSize then false
  else
    let positions : List (ℕ × ℕ) :=
      [(width / 4, height / 4), (3 * width / 4, height / 4),
        (width / 4, 3 * height / 4), (width / 2, height / 2)]
    let patternCount := (positions.filter fun pos =>
      checkFinderPattern gray (pos.1 : ℤ) (pos.2 : ℤ) minSize maxSize).length
    decide (2 ≤ patternCount)

/-- `qrDetector.DetectQRCode`: grayscale conversion followed by the pattern
scan. -/
def detectQRCode (img : RGBAImage) : Bool :=
  hasQRPattern (grayOf img) img.width img.height

/-! ## Quality rule engine (`pkg/validation/quality_validator.go`) -/

/-- `validation.QualityThresholds`.  Width/height/total-pixel floors are Go
`int`s, the rest `float64`. -/
structure QualityThresholds where
  MinLaplacianVariance : ℚ
  MaxLaplacianVariance : ℚ
  MinLaplacianVarianceForOCR : ℚ
  MinBrightness : ℚ
  MaxBrightness : ℚ
  MinLuminance : ℚ
  MaxLuminance : ℚ
  MinSaturation : ℚ
  MaxChannelImbalance : ℚ
  MaxSkewAngle : ℚ
  MinWidth : ℤ
  MinHeight : ℤ
  MinTotalPixels : ℤ
deriving DecidableEq, Repr

/-- `validation.DefaultQualityThresholds`. -/
def defaultQualityThresholds : QualityThresholds where
  MinLaplacianVariance := 100
  MaxLaplacianVariance := 2000
  MinLaplacianVarianceForOCR := 500
  MinBrightness := 80
  MaxBrightness := 220
  MinLuminance := mkRat 2 10
  MaxLuminance := mkRat 9 10
  MinSaturation := mkRat 5 100
  MaxChannelImbalance := mkRat 15 100
  MaxSkewAngle := 5
  MinWidth := 800
  MinHeight := 1000
  MinTotalPixels := 800000

/-- `validation.QualityIssue`.  `IssueType` embeds the Go field `Type`
(a reserved word in Lean). -/
structure QualityIssue where
  IssueType : String
  Message : String
  Severity : String
  ActualValue : ℚ
  Threshold : ℚ
deriving DecidableEq, Repr

/-- `validation.ImageQualityMetrics`: the flags-and-metrics bundle handed to
the validator. -/
structure ImageQualityMetrics where
  Width : ℤ
  Height : ℤ
  LaplacianVar : ℚ
  Brightness : ℚ
  AvgLuminance : ℚ
  AvgSaturation : ℚ
  ChannelBalance : ℚ × ℚ × ℚ
  Overexposed : Bool
  Oversaturated : Bool
  IncorrectWB : Bool
  IsTooDark : Bool
  IsTooBright : Bool
  IsSkewed : Bool
  HasDocumentEdges : Bool
  SkewAngle : Option ℚ
deriving DecidableEq, Repr

/-- `QualityValidator.isChannelBalanced`: max-min spread within the
imbalance tolerance. -/
def isChannelBalanced (t : QualityThresholds) (channels : ℚ × ℚ × ℚ) : Bool :=
  let mx := mathMax channels.1 (mathMax channels.2.1 channels.2.2)
  let mn := mathMin channels.1 (mathMin channels.2.1 channels.2.2)
  decide (mx - mn ≤ t.MaxChannelImbalance)

/-- `QualityValidator.isImageBlurry`: enhanced blur detection.  Variance at
or below the basic floor is blurry unless it stays ≥ 1 and luminance,
channel balance, exposure and saturation all look healthy (the
uniform-content carve-out). -/
def isImageBlurry (t : QualityThresholds) (m : ImageQualityMetrics) : Bool :=
  if m.LaplacianVar ≤ t.MinLaplacianVariance then
    if m.LaplacianVar < 1 then true
    else
      let isBalanced := isChannelBalanced t m.ChannelBalance
      let luminanceOK := decide (mkRat 3 10 ≤ m.AvgLuminance ∧ m.AvgLuminance ≤ mkRat 8 10)
      if luminanceOK && isBalanced && !m.Overexposed && !m.Oversaturated then false
      else true
  else false

/-- `QualityValidator.ValidateBasicQuality`: the seven independent basic
checks, appending issues in source order. -/
def validateBasicQuality (t : QualityThresholds) (m : ImageQualityMetrics) :
    List QualityIssue :=
  let issues : List QualityIssue := []
  -- 1. Blurriness (enhanced detection) / over-sharpening
  let issues :=
    if isImageBlurry t m then
      issues ++ [⟨"blurriness",
        "Image is blurry. Please hold the camera steady and try again.",
        "error", m.LaplacianVar, t.MinLaplacianVariance⟩]
    else if t.MaxLaplacianVariance ≤ m.LaplacianVar then
      issues ++ [⟨"over_sharpening",
        "Image has too much noise or artificial sharpening. Use natural lighting and avoid digital zoom.",
        "error", m.LaplacianVar, t.MaxLaplacianVariance⟩]
    else issues
  -- 2. Overexposure / oversaturation
  let issues :=
    if m.Overexposed then
      issues ++ [⟨"overexposure",
        "Image has too much light. Move to a less bright area.", "error", 0, 0⟩]
    else issues
  let issues :=
    if m.Oversaturated then
      issues ++ [⟨"oversaturation",
        "Colors are too strong. Use normal light while clicking.", "error", 0, 0⟩]
    else issues
  -- 3. White balance
  let issues :=
    if m.IncorrectWB then
      issues ++ [⟨"white_balance",
        "Colors in the photo do not look natural. Use normal lighting.",
        "warning", 0, 0⟩]
    else issues
  -- 4. Average luminance
  let issues :=
    if m.AvgLuminance ≤ t.MinLuminance then
      issues ++ [⟨"low_luminance", "Image is very dull. Use more light.",
        "error", m.AvgLuminance, t.MinLuminance⟩]
    else if t.MaxLuminance ≤ m.AvgLuminance then
      issues ++ [⟨"high_luminance", "Image is too bright. Take it in normal light.",
        "error", m.AvgLuminance, t.MaxLuminance⟩]
    else issues
  -- 5. Saturation
  let issues :=
    if m.AvgSaturation ≤ t.MinSaturation then
      issues ++ [⟨"low_saturation", "Image looks faded. Use proper lighting.",
        "warning", m.AvgSaturation, t.MinSaturation⟩]
    else issues
  -- 6. Channel balance
  let issues :=
    if t.MaxChannelImbalance ≤ mathAbs (m.ChannelBalance.1 - m.ChannelBalance.2.1) ∨
        t.MaxChannelImbalance ≤ mathAbs (m.ChannelBalance.1 - m.ChannelBalance.2.2) ∨
        t.MaxChannelImbalance ≤ mathAbs (m.ChannelBalance.2.1 - m.ChannelBalance.2.2) then
      issues ++ [⟨"channel_imbalance",
        "Colors look odd. Do not use filters or colored lights.",
        "warning", 0, t.MaxChannelImbalance⟩]
    else issues
  issues

/-- The backwards loop of `ValidateOCRQuality` that re-evaluates an existing
"blurriness" issue against the stricter OCR floor: scanning from the end of
the list, the first (i.e. last-indexed) blurriness issue is either given the
OCR threshold (when the variance fails it) or removed (when it passes), and
the loop breaks.  Returns the adjusted list and the `foundBlurrinessIssue`
flag. -/
def adjustBlurForOCR (t : QualityThresholds) (lap : ℚ) :
    List QualityIssue → List QualityIssue × Bool
  | [] => ([], false)
  | issue :: rest =>
    let tail := adjustBlurForOCR t lap rest
    if tail.2 then (issue :: tail.1, true)
    else if issue.IssueType = "blurriness" then
      if lap ≤ t.MinLaplacianVarianceForOCR then
        ({ issue with Threshold := t.MinLaplacianVarianceForOCR } :: rest, true)
      else (rest, true)
    else (issue :: rest, false)

/-- `QualityValidator.ValidateOCRQuality`: the basic checks, the OCR blur
override, then the resolution, brightness, skew and document-edge checks. -/
def validateOCRQuality (t : QualityThresholds) (m : ImageQualityMetrics) :
    List QualityIssue :=
  let issues := validateBasicQuality t m
  let adjusted := adjustBlurForOCR t m.LaplacianVar issues
  let issues := adjusted.1
  let foundBlurrinessIssue := adjusted.2
  -- New OCR blurriness issue when the variance sits between the two floors
  let issues :=
    if !foundBlurrinessIssue ∧ m.LaplacianVar ≤ t.MinLaplacianVarianceForOCR ∧
        t.MinLaplacianVariance < m.LaplacianVar then
      issues ++ [⟨"blurriness",
        "Image is blurry for OCR analysis. Please hold the camera steady and try again.",
        "error", m.LaplacianVar, t.MinLaplacianVarianceForOCR⟩]
    else issues
  -- 1. Resolution check
  let totalPixels := m.Width * m.Height
  let issues :=
    if totalPixels < t.MinTotalPixels ∨ m.Width < t.MinWidth ∨ m.Height < t.MinHeight then
      issues ++ [⟨"low_resolution",
        "Image is too small or unclear. Please take a clearer photo.",
        "error", (totalPixels : ℚ), (t.MinTotalPixels : ℚ)⟩]
    else issues
  -- 2. Brightness
  let issues :=
    if m.IsTooDark then
      issues ++ [⟨"too_dark", "Image is too dark. Take the photo in more light.",
        "error", m.Brightness, t.MinBrightness⟩]
    else issues
  let issues :=
    if m.IsTooBright then
      issues ++ [⟨"too_bright", "Image is too bright. Avoid strong sunlight or flash.",
        "error", m.Brightness, t.MaxBrightness⟩]
    else issues
  -- 3. Skew check: performed only when an angle is present
  let issues :=
    match m.SkewAngle with
    | some angle =>
      if t.MaxSkewAngle < mathAbs angle then
        issues ++ [⟨"skew", "Image is tilted. Hold the phone straight while clicking.",
          "warning", mathAbs angle, t.MaxSkewAngle⟩]
      else issues
    | none => issues
  -- 4. Document edges check
  let issues :=
    if !m.HasDocumentEdges then
      issues ++ [⟨"document_edges",
        "Full paper is not visible. Make sure all corners are inside the photo.",
        "error", 0, 0⟩]
    else issues
  issues

/-- `QualityValidator.ConvertIssuesToMessages`. -/
def convertIssuesToMessages (issues : List QualityIssue) : List String :=
  issues.map QualityIssue.Message

/-- `QualityValidator.HasCriticalIssues`: any error-severity issue. -/
def hasCriticalIssues (issues : List QualityIssue) : Bool :=
  issues.any fun issue => issue.Severity = "error"

/-! ## Result model (`pkg/models/analysis.go`) -/

/-- `models.Quality`.  Go's zero value (all flags false, nil skew angle) is
the state of a freshly reset result. -/
structure Quality where
  Overexposed : Bool
  Oversaturated : Bool
  IncorrectWB : Bool
  Blurry : Bool
  IsValid : Bool
  IsLowResolution : Bool
  IsTooDark : Bool
  IsTooBright : Bool
  IsSkewed : Bool
  HasDocumentEdges : Bool
  QRDetected : Bool
  SkewAngle : Option ℚ
deriving DecidableEq, Repr

/-- `models.ImageMetrics`.  `Resolution` is the `"WxH"` string formatted by
`fmt.Sprintf("%dx%d", width, height)`; it is embedded as the dimension pair,
`none` standing for the empty string of a reset result (decimal formatting
of the two nonnegative dimensions round-trips exactly through
`parseResolution`). -/
structure ImageMetrics where
  LaplacianVar : ℚ
  AvgLuminance : ℚ
  AvgSaturation : ℚ
  ChannelBalance : ℚ × ℚ × ℚ
  Resolution : Option (ℕ × ℕ)
  Brightness : ℚ
  NumContours : ℕ
deriving DecidableEq, Repr

/-- `models.OCRResult`. -/
structure OCRResult where
  ExtractedText : String
  ExpectedText : String
  Confidence : ℚ
  MatchScore : ℚ
  WER : ℚ
  CER : ℚ
  OCRError : String
deriving DecidableEq, Repr

/-- `models.AnalysisResult` (the analysis payload: quality flags, metrics,
optional OCR sub-result, flattened issue messages).  The `ID`, `ImageURL`,
`Timestamp` and `ProcessingTimeSec` fields carry identifiers and wall-clock
data outside the scope of the quality logic and are not modelled. -/
structure AnalysisResult where
  Quality : Quality
  Metrics : ImageMetrics
  OCRResult : Option OCRResult
  Errors : List String
deriving DecidableEq, Repr

/-- The reset performed by `*result = AnalysisResult{}`: Go's zero value. -/
def emptyAnalysisResult : AnalysisResult where
  Quality := ⟨false, false, false, false, false, false, false, false, false,
    false, false, none⟩
  Metrics := ⟨0, 0, 0, (0, 0, 0), none, 0, 0⟩
  OCRResult := none
  Errors := []

/-- The zero value of `models.OCRResult`. -/
def emptyOCRResult : OCRResult := ⟨"", "", 0, 0, 0, 0, ""⟩

/-! ## Analysis options (`internal/analyzer/options.go`) -/

/-- `analyzer.AnalysisOptions`: the per-call configuration bag. -/
structure AnalysisOptions where
  OCRMode : Bool
  FastMode : Bool
  QualityMode : Bool
  BlurThreshold : ℚ
  OverexposureThreshold : ℚ
  OversaturationThreshold : ℚ
  LuminanceThreshold : ℚ
  SkipQRDetection : Bool
  SkipWhiteBalance : Bool
  SkipContourDetection : Bool
  SkipEdgeDetection : Bool
  OCRExpectedText : String
  OCRLanguage : String
  OCREngineMode : String
  UseWorkerPool : Bool
  MaxWorkers : ℤ
deriving DecidableEq, Repr

/-- `analyzer.DefaultOptions`. -/
def defaultOptions : AnalysisOptions where
  OCRMode := false
  FastMode := false
  QualityMode := true
  BlurThreshold := 100
  OverexposureThreshold := mkRat 95 100
  OversaturationThreshold := mkRat 9 10
  LuminanceThreshold := mkRat 95 100
  SkipQRDetection := false
  SkipWhiteBalance := false
  SkipContourDetection := false
  SkipEdgeDetection := false
  OCRExpectedText := ""
  OCRLanguage := ""
  OCREngineMode := ""
  UseWorkerPool := true
  MaxWorkers := 0

/-- `analyzer.OCROptions`. -/
def ocrOptions : AnalysisOptions :=
  { defaultOptions with
    OCRMode := true
    QualityMode := true
    BlurThreshold := 300
    SkipQRDetection := true
    OCRLanguage := "eng"
    OCREngineMode := "accurate" }

/-- `analyzer.FastOptions`. -/
def fastOptions : AnalysisOptions :=
  { defaultOptions with
    FastMode := true
    QualityMode := false
    SkipContourDetection := true
    SkipEdgeDetection := true
    SkipWhiteBalance := true }

/-- `analyzer.QualityOptions`. -/
def qualityOptions : AnalysisOptions :=
  { defaultOptions with
    QualityMode := true
    BlurThreshold := 400
    OverexposureThreshold := mkRat 9 10
    OversaturationThreshold := mkRat 85 100 }

/-- `AnalysisOptions.WithOCR`: Go value receiver — the method works on a
copy of the options and returns it; the caller's value is untouched. -/
def AnalysisOptions.WithOCR (opts : AnalysisOptions) (expectedText : String) :
    AnalysisOptions :=
  { opts with OCRMode := true, OCRExpectedText := expectedText, QualityMode := true }

/-- `AnalysisOptions.WithCustomThresholds` (value receiver). -/
def AnalysisOptions.WithCustomThresholds (opts : AnalysisOptions)
    (blur overexposure oversaturation : ℚ) : AnalysisOptions :=
  { opts with
    BlurThreshold := blur
    OverexposureThreshold := overexposure
    OversaturationThreshold := oversaturation }

/-- `AnalysisOptions.WithFastMode` (value receiver). -/
def AnalysisOptions.WithFastMode (opts : AnalysisOptions) : AnalysisOptions :=
  { opts with
    FastMode := true
    QualityMode := false
    SkipContourDetection := true
    SkipEdgeDetection := true }

/-- `AnalysisOptions.WithoutQRDetection` (value receiver). -/
def AnalysisOptions.WithoutQRDetection (opts : AnalysisOptions) : AnalysisOptions :=
  { opts with SkipQRDetection := true }

/-! ## Core analyzer (`internal/analyzer/core_analyzer.go`) -/

/-- `coreAnalyzer.hasWhiteBalanceIssue`: any pairwise channel difference
above the fixed 0.1 tolerance. -/
def hasWhiteBalanceIssue (avgR avgG avgB : ℚ) : Bool :=
  let threshold : ℚ := mkRat 1 10
  let maxDiff := mathMax (mathAbs (avgR - avgG))
    (mathMax (mathAbs (avgR - avgB)) (mathAbs (avgG - avgB)))
  decide (threshold < maxDiff)

/-- `coreAnalyzer.detectDocumentEdges`: compare the four 10-pixel-inset
corners against the center intensity; corners outside the bounds are
skipped; at least 2 must differ by more than 30. -/
def detectDocumentEdges (gray : GrayImage) : Bool :=
  let width := gray.width
  let height := gray.height
  let corners : List (ℤ × ℤ) :=
    [(10, 10), ((width : ℤ) - 10, 10), (10, (height : ℤ) - 10),
      ((width : ℤ) - 10, (height : ℤ) - 10)]
  let center := (gray.pix (width / 2 : ℕ) (height / 2 : ℕ) : ℤ)
  let differentCorners := (corners.filter fun corner =>
    decide (0 ≤ corner.1 ∧ corner.1 < (width : ℤ) ∧ 0 ≤ corner.2 ∧
        corner.2 < (height : ℤ)) &&
      decide (30 < intAbs ((gray.pix corner.1 corner.2 : ℤ) - center))).length
  decide (2 ≤ differentCorners)

/-- `coreAnalyzer.performEnhancedQualityChecks`: resolution, brightness,
skew (the skew fields are written only when `DetectSkew` yields an angle),
contours and document edges, honoring the skip toggles. -/
def performEnhancedQualityChecks (atanDeg : ℚ → ℚ) (img : RGBAImage)
    (gray : GrayImage) (result : AnalysisResult) (options : AnalysisOptions) :
    AnalysisResult :=
  let width := img.width
  let height := img.height
  let result := { result with
    Metrics.Resolution := some (width, height)
    Quality.IsLowResolution :=
      decide (width * height < 800000 ∨ width < 800 ∨ height < 1000) }
  let brightness := calculateBrightness gray
  let result := { result with
    Metrics.Brightness := brightness
    Quality.IsTooDark := decide (brightness < 80)
    Quality.IsTooBright := decide (220 < brightness) }
  let result :=
    match detectSkew atanDeg gray with
    | some skewAngle =>
      { result with
        Quality.SkewAngle := some skewAngle
        Quality.IsSkewed := decide (5 < skewAngle ∨ skewAngle < -5) }
    | none => result
  let result :=
    if !options.SkipContourDetection then
      { result with Metrics.NumContours := detectContours gray }
    else result
  let result :=
    if !options.SkipEdgeDetection then
      { result with Quality.HasDocumentEdges := detectDocumentEdges gray }
    else result
  result

/-- `coreAnalyzer.parseResolution` on the embedded resolution value: the
empty string (here `none`) parses to `(0, 0)`; a formatted `"WxH"` string
parses back to the dimensions. -/
def parseResolution : Option (ℕ × ℕ) → ℕ × ℕ
  | none => (0, 0)
  | some wh => wh

/-- The `validation.ImageQualityMetrics` record assembled identically by
`coreAnalyzer.validateBasicQuality` and
`coreAnalyzer.validateComprehensiveQuality` from the current result. -/
def qualityMetricsOf (result : AnalysisResult) : ImageQualityMetrics :=
  let wh := parseResolution result.Metrics.Resolution
  { Width := (wh.1 : ℤ)
    Height := (wh.2 : ℤ)
    LaplacianVar := result.Metrics.LaplacianVar
    Brightness := result.Metrics.Brightness
    AvgLuminance := result.Metrics.AvgLuminance
    AvgSaturation := result.Metrics.AvgSaturation
    ChannelBalance := result.Metrics.ChannelBalance
    Overexposed := result.Quality.Overexposed
    Oversaturated := result.Quality.Oversaturated
    IncorrectWB := result.Quality.IncorrectWB
    IsTooDark := result.Quality.IsTooDark
    IsTooBright := result.Quality.IsTooBright
    IsSkewed := result.Quality.IsSkewed
    HasDocumentEdges := result.Quality.HasDocumentEdges
    SkewAngle := result.Quality.SkewAngle }

/-- `coreAnalyzer.validateBasicQuality`: run the shared basic validator
(default thresholds, as built by `NewQualityValidator`) and store the
flattened messages. -/
def coreValidateBasicQuality (result : AnalysisResult) : AnalysisResult :=
  let issues := validateBasicQuality defaultQualityThresholds (qualityMetricsOf result)
  { result with Errors := convertIssuesToMessages issues }

/-- `coreAnalyzer.validateComprehensiveQuality`: run the shared OCR
validator (default thresholds) and store the flattened messages. -/
def coreValidateComprehensiveQuality (result : AnalysisResult) : AnalysisResult :=
  let issues := validateOCRQuality defaultQualityThresholds (qualityMetricsOf result)
  { result with Errors := convertIssuesToMessages issues }

/-- `coreAnalyzer.AnalyzeWithOptions`: the orchestrated analysis call, in
source order — reset result, optional expected text, grayscale derivation,
basic metrics, blur/exposure/saturation flags, optional white balance and
QR detection, enhanced checks and comprehensive validation for OCR/quality
mode (basic validation otherwise), and the OCR placeholder block.  The
`Timestamp`/`ProcessingTimeSec` stamps are wall-clock bookkeeping outside
the model.  Note that no step of the source ever writes `Quality.IsValid`:
the field keeps the `false` it got from the reset. -/
def analyzeWithOptions (atanDeg : ℚ → ℚ) (img : RGBAImage)
    (options : AnalysisOptions) : AnalysisResult :=
  let result := emptyAnalysisResult
  let result :=
    if options.OCRExpectedText ≠ "" then
      { result with
        OCRResult := some { emptyOCRResult with ExpectedText := options.OCRExpectedText } }
    else result
  let gray := grayOf img
  let m := calculateBasicMetrics img
  let result := { result with
    Metrics.AvgLuminance := m.avgLuminance
    Metrics.AvgSaturation := m.avgSaturation
    Metrics.ChannelBalance := (m.avgR, m.avgG, m.avgB) }
  let laplacianVar := calculateLaplacianVariance gray
  let result := { result with
    Metrics.LaplacianVar := laplacianVar
    Quality.Blurry := decide (laplacianVar ≤ options.BlurThreshold) }
  let result := { result with
    Quality.Overexposed := decide (options.OverexposureThreshold < m.avgLuminance)
    Quality.Oversaturated := decide (options.OversaturationThreshold < m.avgSaturation) }
  let result :=
    if !options.SkipWhiteBalance then
      { result with Quality.IncorrectWB := hasWhiteBalanceIssue m.avgR m.avgG m.avgB }
    else result
  let result :=
    if !options.SkipQRDetection then
      { result with Quality.QRDetected := detectQRCode img }
    else result
  let result :=
    if options.OCRMode || options.QualityMode then
      let result :=
        if !options.FastMode then
          performEnhancedQualityChecks atanDeg img gray result options
        else result
      coreValidateComprehensiveQuality result
    else coreValidateBasicQuality result
  let result :=
    if options.OCRMode then
      let ocr := (result.OCRResult).getD emptyOCRResult
      { result with OCRResult := some { ocr with
          ExtractedText := ""
          OCRError := "OCR processing not implemented yet"
          WER := 0
          CER := 0 } }
    else result
  result

/-! ## Worker pool (`internal/analyzer/worker_pool.go`)

The pool's job-completion tracking is concurrent Go code; it is modelled as
an interleaving transition system over an abstract state.  Jobs carry
distinct identifiers.  The mapping to the source:

* `submit j` — a successful `Submit(job)`: the job enters the queue and
  `owp.wg.Add(1)` runs (both under the same `select` success branch).
* `take j` — a worker receives the job from `jobQueue`.
* `exec j` — the worker's `job()` call returns (or its panic is recovered);
  the job's observable effect — here the shared `counter` increment the
  spec's property talks about — has happened.
* `signalDone j` — the worker's subsequent `owp.wg.Done()`.  In the source
  this is program-ordered strictly after `job()` inside the same worker
  loop iteration, which the model captures by requiring `j ∈ executed`.

`Wait()` is `owp.wg.Wait()`: it can return only in a state whose WaitGroup
counter `wg` is zero, and Go's WaitGroup synchronizes (happens-before) every
`Done` with the return of `Wait`, so the effects of all executed jobs are
visible to the waiter. -/

/-- Abstract state of the pool's completion tracking. -/
structure PoolState where
  submitted : Finset ℕ
  taken : Finset ℕ
  executed : Finset ℕ
  doneSignaled : Finset ℕ
  counter : ℕ
  wg : ℕ
deriving DecidableEq

/-- The pool's initial state: nothing submitted, WaitGroup at zero. -/
def initPoolState : PoolState := ⟨∅, ∅, ∅, ∅, 0, 0⟩

/-- One interleaved step of the pool and its client (see the section
comment for the mapping to the Go source). -/
inductive PoolStep : PoolState → PoolState → Prop
  | submit (s : PoolState) (j : ℕ) (hj : j ∉ s.submitted) :
      PoolStep s { s with submitted := insert j s.submitted, wg := s.wg + 1 }
  | take (s : PoolState) (j : ℕ) (hs : j ∈ s.submitted) (ht : j ∉ s.taken) :
      PoolStep s { s with taken := insert j s.taken }
  | exec (s : PoolState) (j : ℕ) (ht : j ∈ s.taken) (he : j ∉ s.executed) :
      PoolStep s { s with executed := insert j s.executed, counter := s.counter + 1 }
  | signalDone (s : PoolState) (j : ℕ) (he : j ∈ s.executed) (hd : j ∉ s.doneSignaled) :
      PoolStep s { s with doneSignaled := insert j s.doneSignaled, wg := s.wg - 1 }

/-- The states reachable from a fresh pool. -/
def PoolReachable (s : PoolState) : Prop :=
  Relation.ReflTransGen PoolStep initPoolState s

/-- The inductive invariant of the completion tracking: `Done` only follows
execution, execution only follows a dequeue, dequeues only cover submitted
jobs; the WaitGroup counter counts submissions not yet `Done`-signalled;
the shared counter counts executed jobs. -/
structure PoolInv (s : PoolState) : Prop where
  done_sub : s.doneSignaled ⊆ s.executed
  exec_sub : s.executed ⊆ s.taken
  taken_sub : s.taken ⊆ s.submitted
  wg_eq : s.wg + s.doneSignaled.card = s.submitted.card
  counter_eq : s.counter = s.executed.card

/-- `Close` lifecycle state of the pool (`closed` flag, pending queue, and a
count of `close(owp.jobQueue)` operations — a second one would panic in
Go). -/
structure PoolLifecycle where
  closed : Bool
  queue : List ℕ
  chanCloseCount : ℕ
deriving DecidableEq, Repr

/-- `WorkerPool.Close` under its mutex: return immediately when already
closed, otherwise set the flag and close the job channel exactly once. -/
def PoolLifecycle.Close (s : PoolLifecycle) : PoolLifecycle :=
  if s.closed then s
  else { s with closed := true, chanCloseCount := s.chanCloseCount + 1 }

/-! ## Concrete inputs used to exercise the embedding -/

/-- A concrete stand-in for the abstracted arctangent (never consulted by
the theorems that use it). -/
def atanDeg0 : ℚ → ℚ := fun _ => 0

/-- A 5×5 image whose channels all hold the same 16-bit value `c`, except
the center pixel which holds `ctr` (`c` and `ctr` are `v * 257` for an
8-bit `v`, the 16-bit expansion Go produces for such pixels). -/
def centerDotImage (c ctr : ℕ) : RGBAImage where
  width := 5
  height := 5
  r := fun x y => if x = 2 ∧ y = 2 then ctr else c
  g := fun x y => if x = 2 ∧ y = 2 then ctr else c
  b := fun x y => if x = 2 ∧ y = 2 then ctr else c

/-- A uniform mid-gray 5×5 image (8-bit 128 on every channel): no edge
evidence at all, so `DetectSkew` declines. -/
def uniformImage : RGBAImage := centerDotImage 32896 32896

/-- A 5×5 mid-gray image with a brighter (8-bit 148) center dot: Laplacian
variance 1000, comfortably sharp and well exposed under the default
thresholds, with no raw quality flag and no error-severity issue. -/
def cleanImage : RGBAImage := centerDotImage 32896 38036

/-- A degenerate image with zero width. -/
def zeroWidthImage : RGBAImage where
  width := 0
  height := 5
  r := fun _ _ => 0
  g := fun _ _ => 0
  b := fun _ _ => 0

/-- Quality metrics with Laplacian variance 50 — at or below the basic
floor — on otherwise healthy, balanced content: the enhanced blur
heuristic classifies the image as sharp. -/
def metricsLap50 : ImageQualityMetrics where
  Width := 1000
  Height := 1000
  LaplacianVar := 50
  Brightness := 150
  AvgLuminance := mkRat 5 10
  AvgSaturation := mkRat 5 10
  ChannelBalance := (mkRat 5 10, mkRat 5 10, mkRat 5 10)
  Overexposed := false
  Oversaturated := false
  IncorrectWB := false
  IsTooDark := false
  IsTooBright := false
  IsSkewed := false
  HasDocumentEdges := true
  SkewAngle := none

/-- Quality metrics with Laplacian variance 200 — between the basic floor
and the OCR floor. -/
def metricsLap200 : ImageQualityMetrics :=
  { metricsLap50 with LaplacianVar := 200 }

/-- Quality metrics of a 100×100 image: 10 000 pixels, far below the
800 000 minimum. -/
def metricsLowRes : ImageQualityMetrics :=
  { metricsLap200 with Width := 100, Height := 100 }

/-! ## Helper lemmas about the issue-list construction steps -/

/-- Every construction step of the validators maps `l` to `l` or to
`l ++ [x]`: membership in the output comes from `l` or is the new issue. -/
theorem mem_of_ite_append {α : Type} {c : Prop} [Decidable c] {l : List α}
    {x i : α} (h : i ∈ if c then l ++ [x] else l) : i ∈ l ∨ i = x := by
  split at h
  · rcases List.mem_append.mp h with h | h
    · exact Or.inl h
    · exact Or.inr (List.mem_singleton.mp h)
  · exact Or.inl h

/-- Membership survives a construction step. -/
theorem mem_ite_append_of_mem {α : Type} {c : Prop} [Decidable c] {l : List α}
    {x : α} {i : α} (h : i ∈ l) : i ∈ if c then l ++ [x] else l := by
  split
  · exact List.mem_append_left _ h
  · exact h

/-- Sanity check of the division embedding: `fdiv` agrees with Mathlib's
field division on `ℚ` everywhere (including the zero divisor, where both
yield `0`). -/
theorem fdiv_eq_div (a b : ℚ) : fdiv a b = a / b := by
  have hda : ((a.den : ℕ) : ℚ) ≠ 0 := Nat.cast_ne_zero.mpr a.den_nz
  have hdb : ((b.den : ℕ) : ℚ) ≠ 0 := Nat.cast_ne_zero.mpr b.den_nz
  have hna : (a.num : ℚ) = a * (a.den : ℚ) := (div_eq_iff hda).mp (Rat.num_div_den a)
  have hnb : (b.num : ℚ) = b * (b.den : ℚ) := (div_eq_iff hdb).mp (Rat.num_div_den b)
  unfold fdiv
  rcases lt_trichotomy b.num 0 with h | h | h
  · have hb0 : b ≠ 0 := fun hb => by simp [hb] at h
    have hbn : (b.num : ℚ) ≠ 0 := Int.cast_ne_zero.mpr (Rat.num_ne_zero.mpr hb0)
    have habsQ : ((b.num.natAbs : ℕ) : ℚ) = -(b.num : ℚ) := by
      rw [Int.cast_natAbs, abs_of_neg h]
      push_cast
      ring
    rw [if_pos h, Rat.mkRat_eq_div]
    push_cast
    rw [habsQ, div_eq_div_iff (mul_ne_zero hda (neg_ne_zero.mpr hbn)) hb0, hna, hnb]
    ring
  · have hb : b = 0 := Rat.num_eq_zero.mp h
    rw [if_neg (by omega), h]
    simp [hb]
  · have hb0 : b ≠ 0 := fun hb => by simp [hb] at h
    have hbn : (b.num : ℚ) ≠ 0 := Int.cast_ne_zero.mpr (Rat.num_ne_zero.mpr hb0)
    have habsQ : ((b.num.natAbs : ℕ) : ℚ) = (b.num : ℚ) := by
      rw [Int.cast_natAbs, abs_of_pos h]
    rw [if_neg (by omega), Rat.mkRat_eq_div]
    push_cast
    rw [habsQ, div_eq_div_iff (mul_ne_zero hda hbn) hb0, hna, hnb]
    ring

/-! ## Claim theorems -/

/-- **C4.** For every input image with width 0 or height 0,
`CalculateBasicMetrics` returns the zero-valued `metrics` record (all five
averages 0): the degenerate-input guard fires before any pixel access or
division. -/
theorem calculateBasicMetrics_zero_size (img : RGBAImage)
    (h : img.width = 0 ∨ img.height = 0) :
    calculateBasicMetrics img = ⟨0, 0, 0, 0, 0⟩ := by
  unfold calculateBasicMetrics
  rw [if_pos h]

/-- Witness for C4: the zero-width image. -/
theorem calculateBasicMetrics_zero_size_witness :
    (zeroWidthImage.width = 0 ∨ zeroWidthImage.height = 0) ∧
      calculateBasicMetrics zeroWidthImage = ⟨0, 0, 0, 0, 0⟩ :=
  ⟨Or.inl rfl, calculateBasicMetrics_zero_size zeroWidthImage (Or.inl rfl)⟩

/-- **C6.** `DetectSkew` returns the absent value exactly when fewer than 10
interior pixels have Sobel gradient magnitude above the edge threshold 50;
with 10 or more edge-candidate pixels it returns a present angle, whatever
the rest of the image contains (and whatever the arctangent computes). -/
theorem detectSkew_none_iff_few_edges (atanDeg : ℚ → ℚ) (gray : GrayImage) :
    detectSkew atanDeg gray = none ↔ (edgePoints gray).length < 10 := by
  simp only [detectSkew]
  split <;> simp_all

/-- **C8.** The option builders have Go value receivers: each works on a
copy and returns it, so the caller's options value (in particular the
`DefaultOptions` instance) is never mutated.  Field by field: every builder
sets exactly its documented fields and leaves all others at the original's
values. -/
theorem option_builders_value_semantics (opts : AnalysisOptions) (text : String)
    (blur oe os : ℚ) :
    ((opts.WithOCR text).OCRMode = true ∧
      (opts.WithOCR text).OCRExpectedText = text ∧
      (opts.WithOCR text).QualityMode = true ∧
      (opts.WithOCR text).FastMode = opts.FastMode ∧
      (opts.WithOCR text).BlurThreshold = opts.BlurThreshold ∧
      (opts.WithOCR text).OverexposureThreshold = opts.OverexposureThreshold ∧
      (opts.WithOCR text).OversaturationThreshold = opts.OversaturationThreshold ∧
      (opts.WithOCR text).LuminanceThreshold = opts.LuminanceThreshold ∧
      (opts.WithOCR text).SkipQRDetection = opts.SkipQRDetection ∧
      (opts.WithOCR text).SkipWhiteBalance = opts.SkipWhiteBalance ∧
      (opts.WithOCR text).SkipContourDetection = opts.SkipContourDetection ∧
      (opts.WithOCR text).SkipEdgeDetection = opts.SkipEdgeDetection ∧
      (opts.WithOCR text).OCRLanguage = opts.OCRLanguage ∧
      (opts.WithOCR text).OCREngineMode = opts.OCREngineMode ∧
      (opts.WithOCR text).UseWorkerPool = opts.UseWorkerPool ∧
      (opts.WithOCR text).MaxWorkers = opts.MaxWorkers) ∧
    ((opts.WithCustomThresholds blur oe os).BlurThreshold = blur ∧
      (opts.WithCustomThresholds blur oe os).OverexposureThreshold = oe ∧
      (opts.WithCustomThresholds blur oe os).OversaturationThreshold = os ∧
      (opts.WithCustomThresholds blur oe os).OCRMode = opts.OCRMode ∧
      (opts.WithCustomThresholds blur oe os).FastMode = opts.FastMode ∧
      (opts.WithCustomThresholds blur oe os).QualityMode = opts.QualityMode ∧
      (opts.WithCustomThresholds blur oe os).LuminanceThreshold = opts.LuminanceThreshold ∧
      (opts.WithCustomThresholds blur oe os).SkipQRDetection = opts.SkipQRDetection ∧
      (opts.WithCustomThresholds blur oe os).SkipWhiteBalance = opts.SkipWhiteBalance ∧
      (opts.WithCustomThresholds blur oe os).SkipContourDetection = opts.SkipContourDetection ∧
      (opts.WithCustomThresholds blur oe os).SkipEdgeDetection = opts.SkipEdgeDetection ∧
      (opts.WithCustomThresholds blur oe os).OCRExpectedText = opts.OCRExpectedText ∧
      (opts.WithCustomThresholds blur oe os).OCRLanguage = opts.OCRLanguage ∧
      (opts.WithCustomThresholds blur oe os).OCREngineMode = opts.OCREngineMode ∧
      (opts.WithCustomThresholds blur oe os).UseWorkerPool = opts.UseWorkerPool ∧
      (opts.WithCustomThresholds blur oe os).MaxWorkers = opts.MaxWorkers) ∧
    (opts.WithFastMode.FastMode = true ∧
      opts.WithFastMode.QualityMode = false ∧
      opts.WithFastMode.SkipContourDetection = true ∧
      opts.WithFastMode.SkipEdgeDetection = true ∧
      opts.WithFastMode.OCRMode = opts.OCRMode ∧
      opts.WithFastMode.BlurThreshold = opts.BlurThreshold ∧
      opts.WithFastMode.OverexposureThreshold = opts.OverexposureThreshold ∧
      opts.WithFastMode.OversaturationThreshold = opts.OversaturationThreshold ∧
      opts.WithFastMode.LuminanceThreshold = opts.LuminanceThreshold ∧
      opts.WithFastMode.SkipQRDetection = opts.SkipQRDetection ∧
      opts.WithFastMode.SkipWhiteBalance = opts.SkipWhiteBalance ∧
      opts.WithFastMode.OCRExpectedText = opts.OCRExpectedText ∧
      opts.WithFastMode.OCRLanguage = opts.OCRLanguage ∧
      opts.WithFastMode.OCREngineMode = opts.OCREngineMode ∧
      opts.WithFastMode.UseWorkerPool = opts.UseWorkerPool ∧
      opts.WithFastMode.MaxWorkers = opts.MaxWorkers) ∧
    (opts.WithoutQRDetection.SkipQRDetection = true ∧
      opts.WithoutQRDetection.OCRMode = opts.OCRMode ∧
      opts.WithoutQRDetection.FastMode = opts.FastMode ∧
      opts.WithoutQRDetection.QualityMode = opts.QualityMode ∧
      opts.WithoutQRDetection.BlurThreshold = opts.BlurThreshold ∧
      opts.WithoutQRDetection.OverexposureThreshold = opts.OverexposureThreshold ∧
      opts.WithoutQRDetection.OversaturationThreshold = opts.OversaturationThreshold ∧
      opts.WithoutQRDetection.LuminanceThreshold = opts.LuminanceThreshold ∧
      opts.WithoutQRDetection.SkipWhiteBalance = opts.SkipWhiteBalance ∧
      opts.WithoutQRDetection.SkipContourDetection = opts.SkipContourDetection ∧
      opts.WithoutQRDetection.SkipEdgeDetection = opts.SkipEdgeDetection ∧
      opts.WithoutQRDetection.OCRExpectedText = opts.OCRExpectedText ∧
      opts.WithoutQRDetection.OCRLanguage = opts.OCRLanguage ∧
      opts.WithoutQRDetection.OCREngineMode = opts.OCREngineMode ∧
      opts.WithoutQRDetection.UseWorkerPool = opts.UseWorkerPool ∧
      opts.WithoutQRDetection.MaxWorkers = opts.MaxWorkers) := by
  repeat' apply And.intro
  all_goals rfl

/-- **C9.** `Close()` is idempotent: a second `Close()` leaves the pool
state (closed flag, queue, channel-close count) exactly as after the first,
and in particular never runs Go's `close` on the job channel a second time
(which would panic); one call closes the channel at most once. -/
theorem close_idempotent (s : PoolLifecycle) :
    s.Close.Close = s.Close ∧
      s.Close.Close.chanCloseCount = s.Close.chanCloseCount ∧
      s.Close.chanCloseCount ≤ s.chanCloseCount + 1 := by
  unfold PoolLifecycle.Close
  by_cases h : s.closed <;> simp [h]

/-- **C10.** For every image whose smaller dimension is under 21 pixels,
`DetectQRCode` returns `false`: the maximum candidate size
`min(width, height) / 3` falls below the 7-pixel minimum and the scan
rejects before testing any candidate. -/
theorem detectQRCode_small_image (img : RGBAImage)
    (h : min img.width img.height < 21) : detectQRCode img = false := by
  have hm : min img.width img.height / 3 < 7 := by omega
  simp only [detectQRCode, hasQRPattern, grayOf]
  rw [if_pos hm]

/-- Witness for C10: a 5×5 image. -/
theorem detectQRCode_small_image_witness :
    min uniformImage.width uniformImage.height < 21 ∧
      detectQRCode uniformImage = false :=
  ⟨by decide, detectQRCode_small_image uniformImage (by decide)⟩

/-- The invariant holds in the initial pool state. -/
theorem poolInv_init : PoolInv initPoolState := by
  constructor <;> simp [initPoolState]

/-- Every pool step preserves the invariant. -/
theorem poolInv_step {s s' : PoolState} (h : PoolStep s s') (hs : PoolInv s) :
    PoolInv s' := by
  obtain ⟨done_sub, exec_sub, taken_sub, wg_eq, counter_eq⟩ := hs
  cases h with
  | submit j hj =>
    refine ⟨done_sub, exec_sub, ?_, ?_, counter_eq⟩
    · exact taken_sub.trans (Finset.subset_insert j s.submitted)
    · simp only [Finset.card_insert_of_not_mem hj]
      omega
  | take j hsub ht =>
    exact ⟨done_sub, exec_sub.trans (Finset.subset_insert j s.taken),
      Finset.insert_subset hsub taken_sub, wg_eq, counter_eq⟩
  | exec j ht he =>
    refine ⟨done_sub.trans (Finset.subset_insert j s.executed),
      Finset.insert_subset ht exec_sub, taken_sub, wg_eq, ?_⟩
    simp only [Finset.card_insert_of_not_mem he]
    omega
  | signalDone j he hd =>
    refine ⟨Finset.insert_subset he done_sub, exec_sub, taken_sub, ?_, counter_eq⟩
    have hjs : j ∈ s.submitted := taken_sub (exec_sub he)
    have hssub : s.doneSignaled ⊆ s.submitted :=
      done_sub.trans (exec_sub.trans taken_sub)
    have hlt : s.doneSignaled.card < s.submitted.card :=
      Finset.card_lt_card ((Finset.ssubset_iff_of_subset hssub).mpr ⟨j, hjs, hd⟩)
    simp only [Finset.card_insert_of_not_mem hd]
    omega

/-- The invariant holds in every reachable pool state. -/
theorem poolInv_reachable {s : PoolState} (h : PoolReachable s) : PoolInv s := by
  induction h with
  | refl => exact poolInv_init
  | tail _ hstep ih => exact poolInv_step hstep ih

/-- **C5.** In every reachable pool state in which `Wait()` can return
(WaitGroup counter zero), the shared counter incremented by each executed
job equals the number of jobs successfully submitted: every submitted job
has observably completed before `Wait` returns, for any number of jobs.
`wg.Done` runs only after the worker's `job()` call, so a zero WaitGroup
counter forces all submitted jobs through execution. -/
theorem wait_sees_all_submitted_jobs_completed (s : PoolState)
    (hreach : PoolReachable s) (hwg : s.wg = 0) :
    s.counter = s.submitted.card := by
  obtain ⟨done_sub, exec_sub, taken_sub, wg_eq, counter_eq⟩ := poolInv_reachable hreach
  have hdone_sub : s.doneSignaled ⊆ s.submitted :=
    done_sub.trans (exec_sub.trans taken_sub)
  have hdone : s.doneSignaled = s.submitted :=
    Finset.eq_of_subset_of_card_le hdone_sub (by omega)
  have hexec : s.executed = s.submitted :=
    Finset.Subset.antisymm (exec_sub.trans taken_sub) (hdone ▸ done_sub)
  rw [counter_eq, hexec]

/-- Witness for C5: a run that submits, takes, executes and done-signals one
job reaches a `Wait`-released state (`wg = 0`) whose counter equals its
submission count. -/
theorem wait_sees_all_submitted_jobs_completed_witness :
    ∃ s : PoolState, PoolReachable s ∧ s.wg = 0 ∧ s.counter = s.submitted.card := by
  have hreach := Relation.ReflTransGen.tail (Relation.ReflTransGen.tail
    (Relation.ReflTransGen.tail (Relation.ReflTransGen.tail
      (Relation.ReflTransGen.refl (a := initPoolState))
      (PoolStep.submit initPoolState 0 (by decide)))
      (PoolStep.take _ 0 (by decide) (by decide)))
      (PoolStep.exec _ 0 (by decide) (by decide)))
      (PoolStep.signalDone _ 0 (by decide) (by decide))
  exact ⟨_, hreach, by decide,
    wait_sees_all_submitted_jobs_completed _ hreach (by decide)⟩

/-- A witness survives a single `if c then l ++ [x] else l` step. -/
theorem exists_mem_ite_append {α : Type} {c : Prop} [Decidable c] {l : List α}
    {x : α} {P : α → Prop} (h : ∃ i ∈ l, P i) :
    ∃ i ∈ (if c then l ++ [x] else l), P i := by
  obtain ⟨i, hi, hP⟩ := h
  exact ⟨i, mem_ite_append_of_mem hi, hP⟩

/-- A witness survives an `if c then l ++ [x] else if c' then l ++ [x'] else l`
step (the if/else-if checks of the validators). -/
theorem exists_mem_ite_append2 {α : Type} {c c' : Prop} [Decidable c]
    [Decidable c'] {l : List α} {x x' : α} {P : α → Prop} (h : ∃ i ∈ l, P i) :
    ∃ i ∈ (if c then l ++ [x] else if c' then l ++ [x'] else l), P i := by
  obtain ⟨i, hi, hP⟩ := h
  split
  · exact ⟨i, List.mem_append_left _ hi, hP⟩
  · exact ⟨i, mem_ite_append_of_mem hi, hP⟩

/-- Membership decomposition through an if/else-if check. -/
theorem mem_of_ite_append2 {α : Type} {c c' : Prop} [Decidable c] [Decidable c']
    {l : List α} {x x' i : α}
    (h : i ∈ if c then l ++ [x] else if c' then l ++ [x'] else l) :
    i ∈ l ∨ i = x ∨ i = x' := by
  split at h
  · rcases List.mem_append.mp h with h | h
    · exact Or.inl h
    · exact Or.inr (Or.inl (List.mem_singleton.mp h))
  · rcases mem_of_ite_append h with h | h
    · exact Or.inl h
    · exact Or.inr (Or.inr h)

/-- Every issue produced by `ValidateBasicQuality` carries one of the nine
basic check types. -/
theorem validateBasicQuality_types (t : QualityThresholds)
    (m : ImageQualityMetrics) (i : QualityIssue)
    (h : i ∈ validateBasicQuality t m) :
    i.IssueType ∈ (["blurriness", "over_sharpening", "overexposure",
      "oversaturation", "white_balance", "low_luminance", "high_luminance",
      "low_saturation", "channel_imbalance"] : List String) := by
  simp only [validateBasicQuality] at h
  rcases mem_of_ite_append h with h | rfl
  rcases mem_of_ite_append h with h | rfl
  rcases mem_of_ite_append2 h with h | rfl | rfl
  rcases mem_of_ite_append h with h | rfl
  rcases mem_of_ite_append h with h | rfl
  rcases mem_of_ite_append h with h | rfl
  rcases mem_of_ite_append2 h with h | rfl | rfl
  · simp at h
  all_goals simp

/-- When the enhanced blur heuristic classifies the image as blurry, the
basic issue list contains a blurriness issue. -/
theorem validateBasicQuality_has_blur (t : QualityThresholds)
    (m : ImageQualityMetrics) (hb : isImageBlurry t m = true) :
    ∃ i ∈ validateBasicQuality t m, i.IssueType = "blurriness" := by
  simp only [validateBasicQuality, hb, if_true]
  refine exists_mem_ite_append (exists_mem_ite_append
    (exists_mem_ite_append2 (exists_mem_ite_append
      (exists_mem_ite_append (exists_mem_ite_append ?_)))))
  exact ⟨_, List.mem_append_right _ (List.mem_singleton_self _), rfl⟩

/-- When the enhanced blur heuristic classifies the image as sharp, the
basic issue list carries no blurriness issue. -/
theorem validateBasicQuality_no_blur (t : QualityThresholds)
    (m : ImageQualityMetrics) (hb : isImageBlurry t m = false) (i : QualityIssue)
    (h : i ∈ validateBasicQuality t m) : i.IssueType ≠ "blurriness" := by
  simp only [validateBasicQuality, hb] at h
  rcases mem_of_ite_append h with h | rfl
  rcases mem_of_ite_append h with h | rfl
  rcases mem_of_ite_append2 h with h | rfl | rfl
  rcases mem_of_ite_append h with h | rfl
  rcases mem_of_ite_append h with h | rfl
  rcases mem_of_ite_append h with h | rfl
  rcases mem_of_ite_append h with h | rfl
  · simp at h
  all_goals simp

/-- `adjustBlurForOCR` reports `foundBlurrinessIssue = true` exactly when
the input list holds a blurriness issue. -/
theorem adjustBlurForOCR_found_iff (t : QualityThresholds) (lap : ℚ)
    (l : List QualityIssue) :
    (adjustBlurForOCR t lap l).2 = true ↔ ∃ i ∈ l, i.IssueType = "blurriness" := by
  induction l with
  | nil => simp [adjustBlurForOCR]
  | cons i rest ih =>
    simp only [adjustBlurForOCR]
    by_cases htail : (adjustBlurForOCR t lap rest).2 = true
    · simp only [htail, if_true]
      simp only [htail, true_iff] at ih
      obtain ⟨j, hj, hjt⟩ := ih
      constructor
      · intro _
        exact ⟨j, List.mem_cons_of_mem i hj, hjt⟩
      · intro _
        trivial
    · simp only [Bool.not_eq_true] at htail
      simp only [htail, Bool.false_eq_true, if_false]
      by_cases hty : i.IssueType = "blurriness"
      · simp only [hty, if_true]
        constructor
        · intro _
          exact ⟨i, List.mem_cons_self i rest, hty⟩
        · intro _
          split <;> rfl
      · simp only [hty, if_false]
        simp only [htail, Bool.false_eq_true, false_iff] at ih ⊢
        push_neg at ih ⊢
        intro j hj
        rcases List.mem_cons.mp hj with rfl | hj
        · exact hty
        · exact ih j hj

/-- When the input list has no blurriness issue, `adjustBlurForOCR` is the
identity and reports `false`. -/
theorem adjustBlurForOCR_no_blur (t : QualityThresholds) (lap : ℚ)
    (l : List QualityIssue) (h : ∀ i ∈ l, i.IssueType ≠ "blurriness") :
    adjustBlurForOCR t lap l = (l, false) := by
  induction l with
  | nil => simp [adjustBlurForOCR]
  | cons i rest ih =>
    have hrest := ih fun j hj => h j (List.mem_cons_of_mem i hj)
    simp only [adjustBlurForOCR, hrest, Bool.false_eq_true, if_false]
    simp only [h i (List.mem_cons_self i rest), if_false]

/-- When the variance fails the OCR floor and a blurriness issue exists in
the input, the adjusted list holds a blurriness issue whose threshold is the
OCR floor. -/
theorem adjustBlurForOCR_sets_threshold (t : QualityThresholds) (lap : ℚ)
    (l : List QualityIssue) (hlap : lap ≤ t.MinLaplacianVarianceForOCR)
    (h : ∃ i ∈ l, i.IssueType = "blurriness") :
    ∃ i ∈ (adjustBlurForOCR t lap l).1,
      i.IssueType = "blurriness" ∧ i.Threshold = t.MinLaplacianVarianceForOCR := by
  induction l with
  | nil => simp at h
  | cons i rest ih =>
    simp only [adjustBlurForOCR]
    by_cases htail : (adjustBlurForOCR t lap rest).2 = true
    · simp only [htail, if_true]
      have hrest := (adjustBlurForOCR_found_iff t lap rest).mp htail
      obtain ⟨j, hj, hjP⟩ := ih hrest
      exact ⟨j, List.mem_cons_of_mem i hj, hjP⟩
    · simp only [Bool.not_eq_true] at htail
      simp only [htail, Bool.false_eq_true, if_false]
      by_cases hty : i.IssueType = "blurriness"
      · simp only [hty, if_true, hlap]
        exact ⟨_, List.mem_cons_self _ _, rfl, rfl⟩
      · simp only [hty, if_false]
        obtain ⟨j, hj, hjt⟩ := h
        rcases List.mem_cons.mp hj with rfl | hj
        · exact absurd hjt hty
        · exact absurd ((adjustBlurForOCR_found_iff t lap rest).mpr ⟨j, hj, hjt⟩)
            (by simp [htail])

/-- `adjustBlurForOCR` never invents a new issue type: every output issue
shares its type with some input issue. -/
theorem adjustBlurForOCR_types (t : QualityThresholds) (lap : ℚ)
    (l : List QualityIssue) (i : QualityIssue)
    (h : i ∈ (adjustBlurForOCR t lap l).1) : ∃ j ∈ l, i.IssueType = j.IssueType := by
  induction l with
  | nil => simp [adjustBlurForOCR] at h
  | cons a rest ih =>
    simp only [adjustBlurForOCR] at h
    by_cases htail : (adjustBlurForOCR t lap rest).2 = true
    · simp only [htail, if_true] at h
      rcases List.mem_cons.mp h with rfl | h
      · exact ⟨i, List.mem_cons_self i rest, rfl⟩
      · obtain ⟨j, hj, hje⟩ := ih h
        exact ⟨j, List.mem_cons_of_mem a hj, hje⟩
    · simp only [Bool.not_eq_true] at htail
      simp only [htail, Bool.false_eq_true, if_false] at h
      by_cases hty : a.IssueType = "blurriness"
      · simp only [hty, if_true] at h
        split at h
        · rcases List.mem_cons.mp h with rfl | h
          · exact ⟨a, List.mem_cons_self a rest, hty.symm⟩
          · exact ⟨i, List.mem_cons_of_mem a h, rfl⟩
        · exact ⟨i, List.mem_cons_of_mem a h, rfl⟩
      · simp only [hty, if_false] at h
        rcases List.mem_cons.mp h with rfl | h
        · exact ⟨i, List.mem_cons_self i rest, rfl⟩
        · exact ⟨i, List.mem_cons_of_mem a h, rfl⟩

/-- **C7.** Whenever the total pixel count sits below the minimum-total-pixels
threshold, `ValidateOCRQuality` emits a `low_resolution` issue with severity
`error` (the resolution check's first disjunct fires; the later checks only
append further issues). -/
theorem validateOCRQuality_low_resolution (t : QualityThresholds)
    (m : ImageQualityMetrics) (h : m.Width * m.Height < t.MinTotalPixels) :
    ∃ i ∈ validateOCRQuality t m,
      i.IssueType = "low_resolution" ∧ i.Severity = "error" := by
  cases hsk : m.SkewAngle with
  | none =>
    simp only [validateOCRQuality, hsk]
    refine exists_mem_ite_append (exists_mem_ite_append (exists_mem_ite_append ?_))
    rw [if_pos (Or.inl h)]
    exact ⟨_, List.mem_append_right _ (List.mem_singleton_self _), rfl, rfl⟩
  | some angle =>
    simp only [validateOCRQuality, hsk]
    refine exists_mem_ite_append (exists_mem_ite_append (exists_mem_ite_append
      (exists_mem_ite_append ?_)))
    rw [if_pos (Or.inl h)]
    exact ⟨_, List.mem_append_right _ (List.mem_singleton_self _), rfl, rfl⟩

/-- Witness for C7: metrics of a 100×100 image under the default
thresholds. -/
theorem validateOCRQuality_low_resolution_witness :
    metricsLowRes.Width * metricsLowRes.Height <
        defaultQualityThresholds.MinTotalPixels ∧
      ∃ i ∈ validateOCRQuality defaultQualityThresholds metricsLowRes,
        i.IssueType = "low_resolution" ∧ i.Severity = "error" :=
  ⟨by decide, validateOCRQuality_low_resolution _ _ (by decide)⟩

/-- Counterexample to C3 as stated: with Laplacian variance 50 — at or below
the OCR minimum (500) and also below the basic minimum (100) — on healthy,
balanced content, the enhanced blur heuristic deems the image sharp, the
basic list has no blurriness issue, and the between-floors condition
(`variance > 100`) also fails, so `ValidateOCRQuality` emits **no**
blurriness issue at all. -/
theorem validateOCRQuality_blur_counterexample :
    metricsLap50.LaplacianVar ≤ defaultQualityThresholds.MinLaplacianVarianceForOCR ∧
      ∀ i ∈ validateOCRQuality defaultQualityThresholds metricsLap50,
        i.IssueType ≠ "blurriness" := by
  decide

/-- **C3** (amended).  Whenever the Laplacian variance is at or below the
OCR minimum-variance floor **and** either the enhanced blur heuristic flags
the image or the variance exceeds the basic floor, `ValidateOCRQuality`
contains a blurriness issue whose recorded threshold is the OCR floor. -/
theorem validateOCRQuality_blur_ocr_threshold (t : QualityThresholds)
    (m : ImageQualityMetrics)
    (h1 : m.LaplacianVar ≤ t.MinLaplacianVarianceForOCR)
    (h2 : isImageBlurry t m = true ∨ t.MinLaplacianVariance < m.LaplacianVar) :
    ∃ i ∈ validateOCRQuality t m,
      i.IssueType = "blurriness" ∧ i.Threshold = t.MinLaplacianVarianceForOCR := by
  have core : ∃ i ∈ (if (!(adjustBlurForOCR t m.LaplacianVar
        (validateBasicQuality t m)).2) = true ∧
          m.LaplacianVar ≤ t.MinLaplacianVarianceForOCR ∧
          t.MinLaplacianVariance < m.LaplacianVar then
        (adjustBlurForOCR t m.LaplacianVar (validateBasicQuality t m)).1 ++
          [⟨"blurriness",
            "Image is blurry for OCR analysis. Please hold the camera steady and try again.",
            "error", m.LaplacianVar, t.MinLaplacianVarianceForOCR⟩]
      else (adjustBlurForOCR t m.LaplacianVar (validateBasicQuality t m)).1),
      i.IssueType = "blurriness" ∧ i.Threshold = t.MinLaplacianVarianceForOCR := by
    rcases h2 with hb | hlt
    · have hfound : (adjustBlurForOCR t m.LaplacianVar (validateBasicQuality t m)).2
          = true :=
        (adjustBlurForOCR_found_iff t m.LaplacianVar _).mpr
          (validateBasicQuality_has_blur t m hb)
      rw [if_neg (fun hc => by simp [hfound] at hc)]
      exact adjustBlurForOCR_sets_threshold t m.LaplacianVar _ h1
        (validateBasicQuality_has_blur t m hb)
    · have hb : isImageBlurry t m = false := by
        unfold isImageBlurry
        rw [if_neg (not_le.mpr hlt)]
      have hadj := adjustBlurForOCR_no_blur t m.LaplacianVar
        (validateBasicQuality t m) (validateBasicQuality_no_blur t m hb)
      rw [hadj]
      rw [if_pos ⟨rfl, h1, hlt⟩]
      exact ⟨_, List.mem_append_right _ (List.mem_singleton_self _), rfl, rfl⟩
  cases hsk : m.SkewAngle with
  | none =>
    simp only [validateOCRQuality, hsk]
    exact exists_mem_ite_append (exists_mem_ite_append (exists_mem_ite_append
      (exists_mem_ite_append core)))
  | some angle =>
    simp only [validateOCRQuality, hsk]
    exact exists_mem_ite_append (exists_mem_ite_append (exists_mem_ite_append
      (exists_mem_ite_append (exists_mem_ite_append core))))

/-- Witness for C3 (amended): variance 200 sits between the basic floor 100
and the OCR floor 500. -/
theorem validateOCRQuality_blur_ocr_threshold_witness :
    (metricsLap200.LaplacianVar ≤
        defaultQualityThresholds.MinLaplacianVarianceForOCR ∧
      defaultQualityThresholds.MinLaplacianVariance < metricsLap200.LaplacianVar) ∧
      ∃ i ∈ validateOCRQuality defaultQualityThresholds metricsLap200,
        i.IssueType = "blurriness" ∧
          i.Threshold = defaultQualityThresholds.MinLaplacianVarianceForOCR :=
  ⟨⟨by decide, by decide⟩,
    validateOCRQuality_blur_ocr_threshold _ _ (by decide) (Or.inr (by decide))⟩

/-- Counterexample to C2 as stated: on a uniform 5×5 image under the OCR
profile, `DetectSkew` yields the absent value, yet the analysis result has
`IsSkewed = false` — the skew check is skipped, the image is **not**
treated as skewed. -/
theorem ocr_absent_skew_counterexample :
    detectSkew atanDeg0 (grayOf uniformImage) = none ∧
      (analyzeWithOptions atanDeg0 uniformImage ocrOptions).Quality.IsSkewed = false := by
  decide

/-- **C2** (amended).  When skew detection yields the absent value, the core
analyzer's enhanced checks leave the skew fields untouched (`IsSkewed` keeps
the `false` of a freshly reset result), and `ValidateOCRQuality` performs
its skew check only when an angle is present: an absent angle produces no
skew finding.  (The legacy `imageAnalyzer.performEnhancedQualityChecks` is
the only place with an `absent ⇒ skewed` policy; the current
`AnalyzeWithOptions` pipeline does not use it.) -/
theorem absent_skew_skips_skew_check :
    (∀ (atanDeg : ℚ → ℚ) (img : RGBAImage) (gray : GrayImage)
      (result : AnalysisResult) (options : AnalysisOptions),
      detectSkew atanDeg gray = none →
        ((performEnhancedQualityChecks atanDeg img gray result options).Quality.IsSkewed
            = result.Quality.IsSkewed ∧
          (performEnhancedQualityChecks atanDeg img gray result options).Quality.SkewAngle
            = result.Quality.SkewAngle)) ∧
    (∀ (t : QualityThresholds) (m : ImageQualityMetrics), m.SkewAngle = none →
      ∀ i ∈ validateOCRQuality t m, i.IssueType ≠ "skew") := by
  constructor
  · intro atanDeg img gray result options h
    simp only [performEnhancedQualityChecks, h]
    constructor
    · split <;> split <;> rfl
    · split <;> split <;> rfl
  · intro t m hsk i hi
    simp only [validateOCRQuality, hsk] at hi
    rcases mem_of_ite_append hi with hi | rfl
    rcases mem_of_ite_append hi with hi | rfl
    rcases mem_of_ite_append hi with hi | rfl
    rcases mem_of_ite_append hi with hi | rfl
    rcases mem_of_ite_append hi with hi | rfl
    · obtain ⟨j, hj, hje⟩ := adjustBlurForOCR_types t m.LaplacianVar _ i hi
      have hmem := validateBasicQuality_types t m j hj
      rw [hje]
      intro hy
      rw [hy] at hmem
      exact absurd hmem (by decide)
    all_goals simp

/-- Witness for C2 (amended): the uniform image's absent skew angle leaves
the enhanced checks' skew fields at their reset values, and metrics with an
absent angle produce no skew issue. -/
theorem absent_skew_skips_skew_check_witness :
    detectSkew atanDeg0 (grayOf uniformImage) = none ∧
      ((performEnhancedQualityChecks atanDeg0 uniformImage (grayOf uniformImage)
          emptyAnalysisResult ocrOptions).Quality.IsSkewed
        = emptyAnalysisResult.Quality.IsSkewed ∧
        (performEnhancedQualityChecks atanDeg0 uniformImage (grayOf uniformImage)
          emptyAnalysisResult ocrOptions).Quality.SkewAngle
        = emptyAnalysisResult.Quality.SkewAngle) ∧
      (∀ i ∈ validateOCRQuality defaultQualityThresholds metricsLap50,
        i.IssueType ≠ "skew") :=
  ⟨by decide,
    absent_skew_skips_skew_check.1 atanDeg0 uniformImage (grayOf uniformImage)
      emptyAnalysisResult ocrOptions (by decide),
    fun i hi => absent_skew_skips_skew_check.2 defaultQualityThresholds
      metricsLap50 rfl i hi⟩

set_option maxRecDepth 8000 in
/-- **C1** (divergence witness).  `AnalyzeWithOptions` never assigns
`Quality.IsValid`: the field keeps the `false` written by the result reset.
On the concrete clean image below (fast options), no raw quality flag is
set and the rule engine reports no error-severity issue, yet the returned
result still has `IsValid = false` — refuting the spec'd equivalence
"`IsValid` = no raw flag ∧ no error issue". -/
theorem analyzeWithOptions_never_sets_isValid :
    (analyzeWithOptions atanDeg0 cleanImage fastOptions).Quality.Blurry = false ∧
      (analyzeWithOptions atanDeg0 cleanImage fastOptions).Quality.Overexposed = false ∧
      (analyzeWithOptions atanDeg0 cleanImage fastOptions).Quality.Oversaturated = false ∧
      (analyzeWithOptions atanDeg0 cleanImage fastOptions).Quality.IncorrectWB = false ∧
      (analyzeWithOptions atanDeg0 cleanImage fastOptions).Quality.IsLowResolution = false ∧
      (analyzeWithOptions atanDeg0 cleanImage fastOptions).Quality.IsTooDark = false ∧
      (analyzeWithOptions atanDeg0 cleanImage fastOptions).Quality.IsTooBright = false ∧
      (analyzeWithOptions atanDeg0 cleanImage fastOptions).Quality.IsSkewed = false ∧
      hasCriticalIssues (validateBasicQuality defaultQualityThresholds
        (qualityMetricsOf (analyzeWithOptions atanDeg0 cleanImage fastOptions))) = false ∧
      (analyzeWithOptions atanDeg0 cleanImage fastOptions).Quality.IsValid = false := by
  decide

end GoImageInspector
